import Mathlib

/-!
# Verification of the StoryGame backend game-orchestration engine

Shallow embedding of `backend/src/services/gameService.js` (a turn-based
collaborative storytelling game engine backed by a document store).

Modelling conventions:
* Timestamps (ISO strings in the source) are modelled by their millisecond
  values as `Nat`; `Date.now()` becomes an explicit `now : Nat` argument.
  The source re-reads the clock several times inside one transaction; we
  thread a single `now` per operation, which identifies those reads.
  The `Number.isFinite` guard on a parsed deadline is always true in this
  model: every stored deadline is a parseable timestamp.
* JS `undefined`/`null` optional values become `Option`; the JS falsy check
  `!x` on a string argument is `x = none ∨ x = some ""`.
* The single game document of the transaction is `stored : Option Game`
  (`none` = the document does not exist).  A mutating operation returns its
  outcome together with the write it performed (`Option Game`, `none` = the
  transaction committed no write, so the stored document is unchanged).
* External collaborators (prompt generation `generateGuidePrompt` /
  `generateInitialPrompt`, UUIDs) are passed in as explicit function /
  string parameters: the engine only embeds their results into the state.
* JS numbers used as scores are modelled as `ℚ` (the judge metrics are small
  integers; float rounding is out of scope of these claims), counters and
  durations as `Nat`.
-/

namespace StoryGame

/-- Game mode: `MODES` in gameService.js. -/
inductive Mode where
  | single
  | multi
  | rapid
deriving Repr, DecidableEq

/-- Game lifecycle status (the string field `status`). -/
inductive Status where
  | waiting
  | active
  | timeout
  | finished
deriving Repr, DecidableEq

/-- A member of `game.players`: `{id, name}`. -/
structure Player where
  id : String
  name : String
deriving Repr, DecidableEq

/-- An entry of `game.pendingRequests`: `{playerId, playerName, requestedAt}`. -/
structure PendingRequest where
  playerId : String
  playerName : String
  requestedAt : Nat
deriving Repr, DecidableEq

/-- The denormalized `game.lastTurn` summary. -/
structure LastTurn where
  playerName : String
  playerId : String
  text : String
  order : Nat
  promptUsed : String
deriving Repr, DecidableEq

/-- The game document (aggregate root).  Field-for-field image of the object
built by `createGame` in gameService.js.  `requiresApproval` is `Option Bool`
because readers apply `game.requiresApproval ?? game.mode === MODES.MULTI`
to tolerate legacy documents missing the field. -/
structure Game where
  id : String
  hostId : String
  hostName : String
  status : Status
  initialPrompt : String
  guidePrompt : Option String
  storySoFar : String
  lastTurn : Option LastTurn
  players : List Player
  turnsCount : Nat
  turnDurationSeconds : Nat
  maxTurns : Nat
  maxPlayers : Nat
  requiresApproval : Option Bool
  pendingRequests : List PendingRequest
  turnDeadline : Option Nat
  currentPlayerIndex : Nat
  currentPlayer : Option String
  currentPlayerId : Option String
  mode : Mode
  createdAt : Nat
  updatedAt : Nat
deriving Repr, DecidableEq

/-- A turn child record (`turns` subcollection document).  The source also
stores `guidePrompt` with the same value as `promptUsed`; we keep one copy. -/
structure TurnRecord where
  id : String
  order : Nat
  playerName : String
  playerId : String
  text : String
  promptUsed : String
  createdAt : Nat
deriving Repr, DecidableEq

/-- JS `a || b` on strings: empty string is falsy. -/
def jsOrS (a b : String) : String := if a = "" then b else a

/-- JS `a || b` where `a` is an optional string (`undefined`/`null`/`""` all
fall through to `b`). -/
def jsOr (a : Option String) (b : String) : String :=
  match a with
  | some v => jsOrS v b
  | none => b

/-- `[a, b].filter(Boolean).join('\n')` for two strings. -/
def joinNonEmpty (a b : String) : String :=
  if a = "" then b else if b = "" then a else a ++ "\n" ++ b

/-- Model of JS `String.prototype.trim`: strip leading and trailing
whitespace. -/
def jsTrim (s : String) : String :=
  ⟨((s.data.dropWhile Char.isWhitespace).reverse.dropWhile Char.isWhitespace).reverse⟩

/-- The trimmed player/host name with its JS default:
`(playerName = 'Anonymous')` then `playerName?.trim()`. -/
def trimName (playerName : Option String) (dflt : String) : String :=
  jsTrim (playerName.getD dflt)

/-- JS falsy test for an optional string argument (`!x`). -/
def strFalsy (x : Option String) : Bool :=
  match x with
  | none => true
  | some v => v = ""

/-- `requiresApproval ?? game.mode === MODES.MULTI` (joinGame, listLobbies). -/
def effectiveRequiresApproval (g : Game) : Bool :=
  g.requiresApproval.getD (g.mode = Mode.multi)

/-- `clamp(value, min, max, fallback)` from gameService.js: `Number(value)`
finite (modelled: present) clamps into `[lo, hi]`, otherwise the fallback. -/
def clamp (value : Option Int) (lo hi fallback : Int) : Int :=
  match value with
  | some num => min hi (max lo num)
  | none => fallback

/-- `advanceTurnState(game)`: rotate `currentPlayerIndex` one step modulo the
player count, update the denormalized current-player fields, and re-arm the
deadline from `turnDurationSeconds`; against an empty player list it clears
the current-player fields and the deadline.  Note that it does NOT touch
`status`. -/
def advanceTurnState (now : Nat) (g : Game) : Game :=
  match g.players with
  | [] =>
    { g with
      currentPlayerIndex := 0
      currentPlayer := none
      currentPlayerId := none
      turnDeadline := none }
  | p :: ps =>
    let nextIndex := (g.currentPlayerIndex + 1) % (p :: ps).length
    let nextPlayer := (p :: ps).get ⟨nextIndex, Nat.mod_lt _ (Nat.succ_pos ps.length)⟩
    { g with
      currentPlayerIndex := nextIndex
      currentPlayer := some nextPlayer.name
      currentPlayerId := some nextPlayer.id
      turnDeadline := some (now + g.turnDurationSeconds * 1000) }

/-- Result of `addPlayerToGame`: either `{game}` or `{error, status}`. -/
inductive AddResult where
  | ok (game : Game)
  | err (error : String) (status : Nat)
deriving Repr, DecidableEq

/-- `addPlayerToGame(game, {playerId, playerName})`: idempotent when a player
with the same id or name exists, rejects with the Full error at capacity,
otherwise appends the player and bumps `updatedAt`. -/
def addPlayerToGame (now : Nat) (g : Game) (playerId playerName : String) : AddResult :=
  if g.players.any (fun p => p.id = playerId ∨ p.name = playerName) then
    .ok g
  else if g.players.length ≥ g.maxPlayers then
    .err "Game is full" 400
  else
    .ok { g with
          players := g.players ++ [{ id := playerId, name := playerName }]
          updatedAt := now }

/-- Outcome of `joinGame` (the transaction result surfaced to the caller). -/
inductive JoinOutcome where
  | err (error : String) (status : Nat)
  | game (g : Game)
deriving Repr, DecidableEq

/-- Transaction body of `joinGame` once the argument validation has passed and
the document was found.  Returns the outcome and the write performed
(`none` = no `tx.set`). -/
def joinGameTx (now : Nat) (game : Game) (trimmedName pid : String) :
    JoinOutcome × Option Game :=
  if game.status = Status.finished then
    (.err "Game has finished" 400, none)
  else if game.status ≠ Status.waiting then
    (.err "Game is not accepting new players" 400, none)
  else if game.mode ≠ Mode.multi then
    (.err "Cannot join a single-player game" 400, none)
  else if effectiveRequiresApproval game ∧ pid ≠ game.hostId then
    (.err "Host approval required" 403, none)
  else if game.players.any (fun p => p.id = pid ∨ p.name = trimmedName) then
    (.game game, none)
  else
    match addPlayerToGame now game pid trimmedName with
    | .err e s => (.err e s, none)
    | .ok g' => (.game g', some g')

/-- `joinGame(gameId, {playerName, playerId})`.  Second component: the stored
document after the call (unchanged when the transaction wrote nothing). -/
def joinGame (now : Nat) (stored : Option Game)
    (playerName playerId : Option String) : JoinOutcome × Option Game :=
  let trimmedName := trimName playerName "Anonymous"
  if trimmedName = "" then (.err "Player name is required" 400, stored)
  else if strFalsy playerId then (.err "Player id is required" 400, stored)
  else
    match stored with
    | none => (.err "Game not found" 404, none)
    | some game =>
      let pid := playerId.getD ""
      let r := joinGameTx now game trimmedName pid
      (r.1, some ((r.2).getD game))

/-- Outcome of `createGame`.  The source either returns the created game or
THROWS (`throw new Error(...)`); it has no `{error, status}` return shape, so
this type deliberately has no error-value constructor. -/
inductive CreateOutcome where
  | thrown (msg : String)
  | ok (game : Game)
deriving Repr, DecidableEq

/-- `RAPID_CONFIG` in gameService.js. -/
def rapidInitialDurationSeconds : Nat := 60
def rapidDecrementSeconds : Nat := 5
def rapidMinimumSeconds : Nat := 20

/-- `createGame({hostName, hostId, initialPrompt, turnDurationSeconds,
maxTurns, maxPlayers, mode})`.  `genInitialPrompt` stands for the awaited
`generateInitialPrompt`, `gameId` for `randomUUID()`.  The `mode` argument is
the raw string with its JS default "multi"; anything that is neither "rapid"
nor "single" yields a multi game. -/
def createGame (genInitialPrompt : String → String) (gameId : String) (now : Nat)
    (hostName hostId initialPrompt : Option String)
    (turnDurationSeconds maxTurns maxPlayers : Option Int)
    (mode : String) : CreateOutcome :=
  let cleanHost := jsOrS (trimName hostName "Host") "Host"
  if strFalsy hostId then
    .thrown "hostId is required (Google user id)"
  else
    let hid := hostId.getD ""
    let seedPrompt := jsOr (initialPrompt.map jsTrim) ""
    let prompt := genInitialPrompt seedPrompt
    let isRapid := mode = "rapid"
    let isSingle := mode = "single"
    let duration : Int :=
      if isRapid then (rapidInitialDurationSeconds : Int)
      else clamp turnDurationSeconds 30 600 60
    let turnsCap := clamp maxTurns 1 50 (if isRapid then 50 else 5)
    let minPlayers : Int := if mode = "single" ∨ isRapid then 1 else 2
    let defaultCap : Int := if isRapid then 2 else if mode = "single" then 1 else 3
    let playerCap := clamp maxPlayers minPlayers 7 defaultCap
    let gameMode := if isRapid then Mode.rapid else if isSingle then Mode.single else Mode.multi
    let initialStatus := if isRapid ∨ isSingle then Status.active else Status.waiting
    let initialDeadline :=
      if initialStatus = Status.active then some (now + duration.toNat * 1000) else none
    .ok
      { id := gameId
        hostId := hid
        hostName := cleanHost
        status := initialStatus
        initialPrompt := prompt
        guidePrompt := none
        storySoFar := prompt
        lastTurn := none
        players := [{ id := hid, name := cleanHost }]
        turnsCount := 0
        turnDurationSeconds := duration.toNat
        maxTurns := turnsCap.toNat
        maxPlayers := playerCap.toNat
        requiresApproval := some (gameMode = Mode.multi)
        pendingRequests := []
        turnDeadline := initialDeadline
        currentPlayerIndex := 0
        currentPlayer := some cleanHost
        currentPlayerId := some hid
        mode := gameMode
        createdAt := now
        updatedAt := now }

/-- The argument object of `generateGuidePrompt` as called by the turn
engine (previewTurn / submitTurn). -/
structure GuideArgs where
  storySoFar : String
  lastTurnText : String
  previousPrompt : Option String
  turnNumber : Nat
  initialPrompt : String
deriving Repr, DecidableEq

/-- Outcome of `previewTurn`: `{error, status}` or `{preview, order}`. -/
inductive PreviewOutcome where
  | err (error : String) (status : Nat)
  | preview (preview : String) (order : Nat)
deriving Repr, DecidableEq

/-- `previewTurn(gameId, {playerName, playerId, text})`: a read of the game
document (no transaction, no write) followed by validation and a prompt
generation.  `gen` stands for the awaited `generateGuidePrompt`. -/
def previewTurn (gen : GuideArgs → String) (stored : Option Game)
    (playerName playerId text : Option String) : PreviewOutcome :=
  let trimmedName := trimName playerName "Anonymous"
  if trimmedName = "" then .err "Player name is required" 400
  else if strFalsy playerId then .err "Player id is required" 400
  else
    match stored with
    | none => .err "Game not found" 404
    | some game =>
      let pid := playerId.getD ""
      if game.status = Status.finished then .err "Game has finished" 400
      else if ¬ game.players.any (fun p => p.id = pid) then
        .err "Player must join the game before previewing a turn" 403
      else
        let cleanText := jsTrim (text.getD "")
        if cleanText = "" then .err "Turn text is required" 400
        else
          let order := game.turnsCount + 1
          let storySoFar := jsOrS game.storySoFar game.initialPrompt
          let combinedStory := joinNonEmpty storySoFar cleanText
          .preview
            (gen { storySoFar := combinedStory
                   lastTurnText := cleanText
                   previousPrompt := game.guidePrompt
                   turnNumber := order + 1
                   initialPrompt := game.initialPrompt })
            order

/-- Outcome of `submitTurn`.  The not-your-turn error carries the trimmed
caller name (the source formats it into the message text) and the current
player; the two timeout errors mirror the two result objects of the deadline
branch. -/
inductive SubmitOutcome where
  | err (error : String) (status : Nat)
  | errNotYourTurn (callerName : String) (status : Nat) (currentPlayer : Option String)
  | errTimeoutFinished (error : String) (status : Nat) (finished : Bool)
  | errTimeoutRotate (error : String) (status : Nat) (timedOutPlayer : Option String)
      (nextPlayer : Option String) (turnDeadline : Option Nat)
  | ok (game : Game) (turn : TurnRecord) (finished : Bool)
deriving Repr, DecidableEq

/-- The transaction of `submitTurn(gameId, {playerName, playerId, text})`.
`gen` stands for `generateGuidePrompt`, `turnId` for `randomUUID()`.
Returns the outcome, the game write (`none` = no `tx.set` on the game doc)
and the turn child record write. -/
def submitTurn (gen : GuideArgs → String) (now : Nat) (stored : Option Game)
    (turnId : String) (playerName playerId text : Option String) :
    SubmitOutcome × Option Game × Option TurnRecord :=
  let trimmedName := trimName playerName "Anonymous"
  if trimmedName = "" then (.err "Player name is required" 400, none, none)
  else if strFalsy playerId then (.err "Player id is required" 400, none, none)
  else
    match stored with
    | none => (.err "Game not found" 404, none, none)
    | some game0 =>
      let pid := playerId.getD ""
      if game0.status = Status.finished then (.err "Game has finished" 400, none, none)
      else if ¬ game0.players.any (fun p => p.id = pid) then
        (.err "Player must join the game before submitting a turn" 403, none, none)
      else if game0.currentPlayerId ≠ some pid then
        (.errNotYourTurn trimmedName 403 game0.currentPlayer, none, none)
      else
        -- Start deadline if not set, then check timeout.
        let d := game0.turnDeadline.getD (now + game0.turnDurationSeconds * 1000)
        let game := { game0 with turnDeadline := some d }
        if now > d then
          if game.mode = Mode.rapid then
            let finishedState :=
              { game with
                status := Status.finished
                currentPlayer := none
                currentPlayerId := none
                turnDeadline := none
                updatedAt := now }
            (.errTimeoutFinished "Turn timed out" 409 true, some finishedState, none)
          else
            let nextState := advanceTurnState now { game with status := Status.timeout, updatedAt := now }
            (.errTimeoutRotate "Turn timed out" 409 game.currentPlayer
              nextState.currentPlayer nextState.turnDeadline, some nextState, none)
        else
          let cleanText := jsTrim (text.getD "")
          if cleanText = "" then (.err "Turn text is required" 400, none, none)
          else
            let order := game.turnsCount + 1
            let currentPrompt := jsOr game.guidePrompt game.initialPrompt
            let storySoFar := jsOrS game.storySoFar game.initialPrompt
            let updatedStory := joinNonEmpty storySoFar cleanText
            let willFinish := if game.maxTurns = 0 then false else decide (order ≥ game.maxTurns)
            let nextPrompt :=
              if willFinish then none
              else some
                (gen { storySoFar := updatedStory
                       lastTurnText := cleanText
                       previousPrompt := game.guidePrompt
                       turnNumber := order + 1
                       initialPrompt := game.initialPrompt })
            let turn : TurnRecord :=
              { id := turnId
                order := order
                playerName := trimmedName
                playerId := pid
                text := cleanText
                promptUsed := currentPrompt
                createdAt := now }
            let nextDuration :=
              if game.mode = Mode.rapid then
                max rapidMinimumSeconds
                  ((if game.turnDurationSeconds = 0 then rapidInitialDurationSeconds
                    else game.turnDurationSeconds) - rapidDecrementSeconds)
              else game.turnDurationSeconds
            let baseUpdate :=
              { game with
                guidePrompt := nextPrompt
                storySoFar := updatedStory
                lastTurn := some
                  { playerName := trimmedName
                    playerId := pid
                    text := cleanText
                    order := order
                    promptUsed := currentPrompt }
                turnsCount := order
                updatedAt := now
                status := if willFinish then Status.finished else Status.active
                turnDurationSeconds := nextDuration
                turnDeadline :=
                  if willFinish then none else some (now + nextDuration * 1000) }
            let progressed :=
              if willFinish then
                { baseUpdate with currentPlayerId := none, currentPlayer := none }
              else advanceTurnState now baseUpdate
            (.ok progressed turn willFinish, some progressed, some turn)

/-- The post-transaction tail of `submitTurn`: error results return before
scoring (`if (result?.error) return result`), and `scoreGame` is invoked
exactly once when `result.finished` is set on a successful commit. -/
def submitTurnScoringCalls (r : SubmitOutcome) : Nat :=
  match r with
  | .ok _ _ true => 1
  | _ => 0

/-- The computed `info` block returned by `getGameState`. -/
structure StateInfo where
  status : Status
  currentPlayer : Option String
  nextDeadline : Option Nat
  timeRemainingSeconds : Option Nat
  remainingTurns : Option Nat
  maxTurns : Nat
  playerCount : Nat
  maxPlayers : Nat
  isFull : Bool
deriving Repr, DecidableEq

/-- Outcome of `getGameState`.  The source also returns a scrubbed projection
of the game (`scrubGameForPlayer`: drop `storySoFar`, fall back `guidePrompt`
to `initialPrompt` before the first turn); the claims under verification read
only the `info` block and the stored document, so the scrubbed projection is
not replicated here. -/
inductive GetStateOutcome where
  | err (error : String) (status : Nat)
  | ok (info : StateInfo)
deriving Repr, DecidableEq

/-- The `info` object computed at the end of `getGameState`.  `Nat`
subtraction realizes both `Math.max(0, ...)` clamps of the source. -/
def mkStateInfo (now : Nat) (g : Game) : StateInfo :=
  { status := g.status
    currentPlayer := g.currentPlayer
    nextDeadline := g.turnDeadline
    timeRemainingSeconds := g.turnDeadline.map (fun dl => (dl - now) / 1000)
    remainingTurns := if g.maxTurns = 0 then none else some (g.maxTurns - g.turnsCount)
    maxTurns := g.maxTurns
    playerCount := g.players.length
    maxPlayers := g.maxPlayers
    isFull := g.players.length ≥ g.maxPlayers }

/-- The guarded deadline-expiry test of `getGameState`: a deadline exists and
`Date.now()` is strictly past it. -/
def deadlinePassed (now : Nat) (dl : Option Nat) : Bool :=
  match dl with
  | some d => now > d
  | none => false

/-- `getGameState(gameId)`: a read that lazily auto-finishes an expired
active rapid game (writing the finished state back) before building the
response.  Second component: the write performed, `none` if no write. -/
def getGameState (now : Nat) (stored : Option Game) : GetStateOutcome × Option Game :=
  match stored with
  | none => (.err "Game not found" 404, none)
  | some g0 =>
    if g0.mode = Mode.rapid ∧ g0.status = Status.active ∧
        deadlinePassed now g0.turnDeadline then
      let finished :=
        { g0 with
          status := Status.finished
          currentPlayer := none
          currentPlayerId := none
          turnDeadline := none
          updatedAt := now }
      (.ok (mkStateInfo now finished), some finished)
    else
      (.ok (mkStateInfo now g0), none)

/-- Outcome of `reviewJoinRequest`: `{error, status}` or `{game, approved}`. -/
inductive ReviewOutcome where
  | err (error : String) (status : Nat)
  | ok (game : Game) (approved : Bool)
deriving Repr, DecidableEq

/-- Transaction body of `reviewJoinRequest` once arguments are validated and
the document exists.  Returns the outcome and the write (`none` = no
`tx.set`: every error path returns before the write). -/
def reviewJoinRequestTx (now : Nat) (game : Game) (hid pid : String)
    (approve : Bool) : ReviewOutcome × Option Game :=
  if game.hostId ≠ hid then
    (.err "Only the host can manage join requests" 403, none)
  else if game.status ≠ Status.waiting then
    (.err "Game is not accepting new players" 400, none)
  else
    match game.pendingRequests.find? (fun req => req.playerId = pid) with
    | none => (.err "Join request not found" 404, none)
    | some request =>
      let remainingRequests := game.pendingRequests.filter (fun req => req.playerId ≠ pid)
      let updatedGame := { game with pendingRequests := remainingRequests, updatedAt := now }
      if approve then
        match addPlayerToGame now updatedGame request.playerId request.playerName with
        | .err e s => (.err e s, none)
        | .ok g' => (.ok g' true, some g')
      else
        (.ok updatedGame false, some updatedGame)

/-- `reviewJoinRequest(gameId, {hostId, playerId, approve})`.  Second
component: the stored document after the call. -/
def reviewJoinRequest (now : Nat) (stored : Option Game)
    (hostId playerId : Option String) (approve : Bool) : ReviewOutcome × Option Game :=
  if strFalsy hostId then (.err "hostId is required" 400, stored)
  else if strFalsy playerId then (.err "playerId is required" 400, stored)
  else
    match stored with
    | none => (.err "Game not found" 404, none)
    | some game =>
      let r := reviewJoinRequestTx now game (hostId.getD "") (playerId.getD "") approve
      (r.1, some ((r.2).getD game))

/-! ## Leaderboard update (completion pipeline) -/

/-- The per-player score object returned by the scoring collaborator, with the
synonym fields the source reads (`cohesion ?? continuity`,
`prompt_fit ?? promptFit ?? momentum`).  Values are `Option ℚ`: an absent
field is `none` (the source coerces it to 0 via `Number(x) || 0`). -/
structure ScoreObj where
  creativity : Option ℚ
  cohesion : Option ℚ
  continuity : Option ℚ
  prompt_fit : Option ℚ
  promptFit : Option ℚ
  momentum : Option ℚ
deriving Repr, DecidableEq

/-- `Number(scoreObj.creativity) || 0`. -/
def scoreCreativity (s : ScoreObj) : ℚ := s.creativity.getD 0

/-- `Number(scoreObj.cohesion ?? scoreObj.continuity) || 0`. -/
def scoreCohesion (s : ScoreObj) : ℚ := (s.cohesion <|> s.continuity).getD 0

/-- `Number(scoreObj.prompt_fit ?? scoreObj.promptFit ?? scoreObj.momentum) || 0`. -/
def scorePromptFit (s : ScoreObj) : ℚ :=
  ((s.prompt_fit <|> s.promptFit) <|> s.momentum).getD 0

/-- `const total = (creativity + cohesion + promptFit) / 3` — the aggregate
score.  (The source also computes a `momentum` constant that is never used.) -/
def aggregateScore (s : ScoreObj) : ℚ :=
  (scoreCreativity s + scoreCohesion s + scorePromptFit s) / 3

/-- Opaque stand-in for the saved-game `summary` object built by the
completion pipeline; the leaderboard stores it verbatim. -/
structure GameSummaryDoc where
  gameId : String
  summaryText : String
deriving Repr, DecidableEq

/-- A leaderboard collection document (one per user, keyed by `userId`). -/
structure LBEntry where
  userId : String
  username : String
  lastScore : ℚ
  topScore : ℚ
  gamesPlayed : Nat
  lastUpdated : Nat
  topGameSummary : Option GameSummaryDoc
deriving Repr, DecidableEq

/-- Document lookup by id (`leaderboardCollection.doc(userId)` + `tx.get`). -/
def findLBEntry (lb : List LBEntry) (userId : String) : Option LBEntry :=
  lb.find? (fun e => e.userId = userId)

/-- Keyed document write: replace the (first) entry with the same `userId`,
or append a new document. -/
def setLBEntry : List LBEntry → LBEntry → List LBEntry
  | [], e => [e]
  | x :: xs, e => if x.userId = e.userId then e :: xs else x :: setLBEntry xs e

/-- The per-user transaction inside `updateLeaderboard`: read the existing
entry, compute the aggregate, and `tx.set(..., {merge: true})` the update.
Because of the merge write, `topGameSummary` is only overwritten when the new
total is a strict personal best AND a summary is available; otherwise the
previous value persists. -/
def upsertLBEntry (now : Nat) (userId name : String) (s : ScoreObj)
    (summary : Option GameSummaryDoc) (lb : List LBEntry) : List LBEntry :=
  let existing := findLBEntry lb userId
  let prevTop : ℚ := match existing with | some e => e.topScore | none => 0
  let prevGames : Nat := match existing with | some e => e.gamesPlayed | none => 0
  let prevSummary : Option GameSummaryDoc :=
    match existing with | some e => e.topGameSummary | none => none
  let total := aggregateScore s
  let isTop := total > prevTop
  setLBEntry lb
    { userId := userId
      username := name
      lastScore := total
      topScore := max prevTop total
      gamesPlayed := prevGames + 1
      lastUpdated := now
      topGameSummary := if isTop ∧ summary.isSome then summary else prevSummary }

/-- `new Map(players.map((p) => [p.name, p.id]))` then `.get(name)`: on
duplicate names the later player wins, hence the reverse search. -/
def resolvePlayerId (players : List Player) (name : String) : Option String :=
  (players.reverse.find? (fun p => p.name = name)).map (fun p => p.id)

/-- Insertion into a list kept sorted by `topScore` descending. -/
def insertByTopScore (e : LBEntry) : List LBEntry → List LBEntry
  | [] => [e]
  | x :: xs => if e.topScore ≥ x.topScore then e :: x :: xs else x :: insertByTopScore e xs

/-- `leaderboardCollection.orderBy('topScore', 'desc')`. -/
def sortByTopScoreDesc (lb : List LBEntry) : List LBEntry :=
  lb.foldr insertByTopScore []

/-- The trim step of `updateLeaderboard`: when more than 10 documents exist,
batch-delete everything beyond the top 10 by `topScore`. -/
def trimLeaderboard (lb : List LBEntry) : List LBEntry :=
  if lb.length > 10 then (sortByTopScoreDesc lb).take 10 else lb

/-- `updateLeaderboard(playerScores, players, summary)` acting on the
leaderboard collection `lb`.  `playerScores` is `scores?.players` flattened
to an association list (`Object.entries`); `none` models the early return
`if (!playerScores?.players) return`. -/
def updateLeaderboard (now : Nat) (playerScores : Option (List (String × ScoreObj)))
    (players : List Player) (summary : Option GameSummaryDoc)
    (lb : List LBEntry) : List LBEntry :=
  match playerScores with
  | none => lb
  | some entries =>
    let upserted := entries.foldl
      (fun acc e =>
        match resolvePlayerId players e.1 with
        | none => acc
        | some userId => upsertLBEntry now userId e.1 e.2 summary acc)
      lb
    trimLeaderboard upserted

/-! ## Membership invariant and membership-operation sequences -/

/-- The membership invariant of the data model: the player list never exceeds
`maxPlayers` and a player id or name appears at most once. -/
def MembershipInvariant (g : Game) : Prop :=
  g.players.length ≤ g.maxPlayers ∧
  (g.players.map Player.id).Nodup ∧
  (g.players.map Player.name).Nodup

instance (g : Game) : Decidable (MembershipInvariant g) := by
  unfold MembershipInvariant; infer_instance

/-- One membership operation on the stored game document: a direct join or a
host review of a pending join request, at some wall-clock instant. -/
inductive MembershipOp where
  | join (now : Nat) (playerName playerId : Option String)
  | review (now : Nat) (hostId playerId : Option String) (approve : Bool)
deriving Repr, DecidableEq

/-- The stored document after one membership operation. -/
def applyMembershipOp (stored : Option Game) : MembershipOp → Option Game
  | .join now playerName playerId => (joinGame now stored playerName playerId).2
  | .review now hostId playerId approve =>
    (reviewJoinRequest now stored hostId playerId approve).2

/-- The stored document after a sequence of membership operations. -/
def runMembershipOps (stored : Option Game) (ops : List MembershipOp) : Option Game :=
  ops.foldl applyMembershipOp stored

/-! ## Concrete fixtures used by witnesses and counterexamples -/

/-- A deterministic stand-in for the prompt-generation collaborator. -/
def genStub : GuideArgs → String := fun a => "GUIDE-" ++ toString a.turnNumber

/-- Status projection of a `getGameState` outcome. -/
def stateInfoStatus (o : GetStateOutcome) : Option Status :=
  match o with
  | .ok info => some info.status
  | .err _ _ => none

/-- A multiplayer lobby awaiting start: host `Hope`, member `Alice`,
pending request from `Bob`, at capacity 2, approval required (the value
`createGame` always assigns to a multi game). -/
def gLobby : Game :=
  { id := "game-1"
    hostId := "h1"
    hostName := "Hope"
    status := Status.waiting
    initialPrompt := "Once"
    guidePrompt := none
    storySoFar := "Once"
    lastTurn := none
    players := [{ id := "h1", name := "Hope" }, { id := "a1", name := "Alice" }]
    turnsCount := 0
    turnDurationSeconds := 60
    maxTurns := 5
    maxPlayers := 2
    requiresApproval := some true
    pendingRequests := [{ playerId := "b1", playerName := "Bob", requestedAt := 5 }]
    turnDeadline := none
    currentPlayerIndex := 0
    currentPlayer := some "Hope"
    currentPlayerId := some "h1"
    mode := Mode.multi
    createdAt := 0
    updatedAt := 0 }

/-- An active multiplayer game whose turn deadline (1000 ms) has already
elapsed at the times used below; `Hope` is the current player. -/
def gActive : Game :=
  { gLobby with
    status := Status.active
    pendingRequests := []
    turnDeadline := some 1000 }

/-- Like `gActive` but with a deadline far in the future. -/
def gActiveFuture : Game :=
  { gActive with turnDeadline := some 10000000 }

/-- A solo active game one turn away from its turn cap, deadline far in the
future. -/
def gFinishing : Game :=
  { gActiveFuture with
    players := [{ id := "h1", name := "Hope" }]
    maxPlayers := 1
    maxTurns := 1 }

/-- Like `gFinishing` but with a falsy (0) `maxTurns`. -/
def gUncapped : Game :=
  { gFinishing with maxTurns := 0 }

/-- An active rapid game (solo host) whose deadline has elapsed. -/
def gRapid : Game :=
  { gActive with
    players := [{ id := "h1", name := "Hope" }]
    mode := Mode.rapid
    requiresApproval := some false
    maxTurns := 50
    turnsCount := 3 }

/-! ## Helper lemmas -/

theorem advanceTurnState_status (now : Nat) (g : Game) :
    (advanceTurnState now g).status = g.status := by
  cases h : g.players <;> simp [advanceTurnState, h]

theorem advanceTurnState_mode (now : Nat) (g : Game) :
    (advanceTurnState now g).mode = g.mode := by
  cases h : g.players <;> simp [advanceTurnState, h]

theorem advanceTurnState_turnsCount (now : Nat) (g : Game) :
    (advanceTurnState now g).turnsCount = g.turnsCount := by
  cases h : g.players <;> simp [advanceTurnState, h]

theorem advanceTurnState_players (now : Nat) (g : Game) :
    (advanceTurnState now g).players = g.players := by
  cases h : g.players <;> simp [advanceTurnState, h]

theorem advanceTurnState_rotates (now : Nat) (g : Game) (hne : g.players ≠ []) :
    (advanceTurnState now g).currentPlayerIndex =
      (g.currentPlayerIndex + 1) % g.players.length ∧
    (advanceTurnState now g).turnDeadline =
      some (now + g.turnDurationSeconds * 1000) := by
  cases h : g.players with
  | nil => exact absurd h hne
  | cons p ps => constructor <;> simp [advanceTurnState, h]

theorem membershipInvariant_of_same_players (g g' : Game)
    (hp : g'.players = g.players) (hm : g'.maxPlayers = g.maxPlayers)
    (hinv : MembershipInvariant g) : MembershipInvariant g' := by
  unfold MembershipInvariant at *
  rw [hp, hm]
  exact hinv

theorem addPlayerToGame_ok_inv (now : Nat) (g g' : Game) (pid pname : String)
    (hinv : MembershipInvariant g)
    (hok : addPlayerToGame now g pid pname = .ok g') :
    MembershipInvariant g' := by
  unfold addPlayerToGame at hok
  by_cases hmem : g.players.any (fun p => p.id = pid ∨ p.name = pname)
  · rw [if_pos hmem] at hok
    cases hok
    exact hinv
  · rw [if_neg hmem] at hok
    by_cases hfull : g.players.length ≥ g.maxPlayers
    · rw [if_pos hfull] at hok
      cases hok
    · rw [if_neg hfull] at hok
      cases hok
      obtain ⟨hlen, hids, hnames⟩ := hinv
      simp only [List.any_eq_true, decide_eq_true_eq, not_exists, not_and, not_or] at hmem
      refine ⟨?_, ?_, ?_⟩
      · simp only [List.length_append, List.length_singleton]
        omega
      · simp only [List.map_append, List.map_cons, List.map_nil]
        rw [List.nodup_append]
        refine ⟨hids, List.nodup_singleton _, ?_⟩
        intro x hx hx1
        simp only [List.mem_singleton] at hx1
        subst hx1
        obtain ⟨p, hp, hpe⟩ := List.mem_map.mp hx
        exact (hmem p hp).1 hpe
      · simp only [List.map_append, List.map_cons, List.map_nil]
        rw [List.nodup_append]
        refine ⟨hnames, List.nodup_singleton _, ?_⟩
        intro x hx hx1
        simp only [List.mem_singleton] at hx1
        subst hx1
        obtain ⟨p, hp, hpe⟩ := List.mem_map.mp hx
        exact (hmem p hp).2 hpe

theorem joinGameTx_write_eq (now : Nat) (game g' : Game) (n p : String)
    (hw : (joinGameTx now game n p).2 = some g') :
    addPlayerToGame now game p n = .ok g' := by
  unfold joinGameTx at hw
  repeat' split at hw
  all_goals simp_all

theorem joinGameTx_write_inv (now : Nat) (game g' : Game) (n p : String)
    (hinv : MembershipInvariant game)
    (hw : (joinGameTx now game n p).2 = some g') : MembershipInvariant g' :=
  addPlayerToGame_ok_inv now game g' p n hinv (joinGameTx_write_eq now game g' n p hw)

theorem joinGame_write_inv (now : Nat) (stored : Option Game)
    (n i : Option String) (g' : Game)
    (hinv : ∀ g, stored = some g → MembershipInvariant g)
    (hw : (joinGame now stored n i).2 = some g') : MembershipInvariant g' := by
  unfold joinGame at hw
  by_cases h1 : trimName n "Anonymous" = ""
  · rw [if_pos h1] at hw
    exact hinv g' hw
  · rw [if_neg h1] at hw
    by_cases h2 : strFalsy i
    · rw [if_pos h2] at hw
      exact hinv g' hw
    · rw [if_neg h2] at hw
      cases stored with
      | none => simp at hw
      | some game =>
        simp only at hw
        have hg := hinv game rfl
        cases hJ : (joinGameTx now game (trimName n "Anonymous") (i.getD "")).2 with
        | none => simp [hJ] at hw; subst hw; exact hg
        | some gw =>
          simp [hJ] at hw
          subst hw
          exact joinGameTx_write_inv now game gw (trimName n "Anonymous") (i.getD "") hg hJ

theorem reviewJoinRequestTx_write_inv (now : Nat) (game g' : Game)
    (hid pid : String) (approve : Bool)
    (hinv : MembershipInvariant game)
    (hw : (reviewJoinRequestTx now game hid pid approve).2 = some g') :
    MembershipInvariant g' := by
  unfold reviewJoinRequestTx at hw
  split at hw
  · simp at hw
  split at hw
  · simp at hw
  split at hw
  · simp at hw
  next request heq =>
  split at hw
  · -- approve = true: the write is a successful addPlayerToGame on the
    -- request-filtered game, whose player list equals the original one.
    simp only [] at hw
    split at hw
    next e s heq2 => simp at hw
    next g'' heq2 =>
      simp only [Option.some.injEq] at hw
      subst hw
      refine addPlayerToGame_ok_inv now _ _ request.playerId request.playerName ?_ heq2
      exact membershipInvariant_of_same_players game _ rfl rfl hinv
  · -- denial: the write only filters pendingRequests.
    simp only [Option.some.injEq] at hw
    subst hw
    exact membershipInvariant_of_same_players game _ rfl rfl hinv

theorem reviewJoinRequest_write_inv (now : Nat) (stored : Option Game)
    (h i : Option String) (approve : Bool) (g' : Game)
    (hinv : ∀ g, stored = some g → MembershipInvariant g)
    (hw : (reviewJoinRequest now stored h i approve).2 = some g') :
    MembershipInvariant g' := by
  unfold reviewJoinRequest at hw
  by_cases h1 : strFalsy h
  · rw [if_pos h1] at hw
    exact hinv g' hw
  · rw [if_neg h1] at hw
    by_cases h2 : strFalsy i
    · rw [if_pos h2] at hw
      exact hinv g' hw
    · rw [if_neg h2] at hw
      cases stored with
      | none => simp at hw
      | some game =>
        simp only at hw
        have hg := hinv game rfl
        cases hJ : (reviewJoinRequestTx now game (h.getD "") (i.getD "") approve).2 with
        | none => simp [hJ] at hw; subst hw; exact hg
        | some gw =>
          simp [hJ] at hw
          subst hw
          exact reviewJoinRequestTx_write_inv now game gw (h.getD "") (i.getD "") approve hg hJ

theorem runMembershipOps_inv (ops : List MembershipOp) (stored : Option Game) (g' : Game)
    (hinv : ∀ g, stored = some g → MembershipInvariant g)
    (hrun : runMembershipOps stored ops = some g') : MembershipInvariant g' := by
  induction ops generalizing stored with
  | nil =>
    simp [runMembershipOps] at hrun
    exact hinv g' hrun
  | cons op ops ih =>
    have hstep : ∀ g, applyMembershipOp stored op = some g → MembershipInvariant g := by
      intro g hg
      cases op with
      | join now n i => exact joinGame_write_inv now stored n i g hinv hg
      | review now h i a => exact reviewJoinRequest_write_inv now stored h i a g hinv hg
    exact ih (applyMembershipOp stored op) hstep hrun

theorem clamp_toNat_pos (v : Option Int) (lo hi fallback : Int)
    (hlo : 1 ≤ lo) (hhi : lo ≤ hi) (hfb : 1 ≤ fallback) :
    1 ≤ (clamp v lo hi fallback).toNat := by
  cases v <;> simp [clamp] <;> omega

/-! ## Claim theorems -/

/-- **C7** (code_bug evidence): when `hostId` is absent (or empty, which is
equally falsy in JS), `createGame` THROWS `hostId is required (Google user
id)` across the operation boundary.  `CreateOutcome` has no error-value
constructor because the source never returns an `{error, status}` object from
`createGame`, so no InvalidInput result-or-error value (status 400) exists,
contradicting the spec and `docs/api.md` (`400 on validation failure`). -/
theorem createGame_missing_hostId_throws :
    (∀ genI gid now hostName prompt tds mt mp mode,
        createGame genI gid now hostName none prompt tds mt mp mode =
          .thrown "hostId is required (Google user id)") ∧
    (∀ genI gid now hostName prompt tds mt mp mode,
        createGame genI gid now hostName (some "") prompt tds mt mp mode =
          .thrown "hostId is required (Google user id)") := by
  constructor <;>
    · intro genI gid now hostName prompt tds mt mp mode
      simp [createGame, strFalsy]

/-- **C9**: reading the state of an active rapid game whose deadline has
passed persists the game as finished (clearing `currentPlayer`,
`currentPlayerId` and `turnDeadline`) as a side effect of the read, and the
returned `info` block reports status finished. -/
theorem getGameState_rapid_expiry (now : Nat) (g : Game) (d : Nat)
    (hmode : g.mode = Mode.rapid) (hstatus : g.status = Status.active)
    (hdl : g.turnDeadline = some d) (hnow : now > d) :
    getGameState now (some g) =
      (.ok (mkStateInfo now
            { g with
              status := Status.finished
              currentPlayer := none
              currentPlayerId := none
              turnDeadline := none
              updatedAt := now }),
       some
          { g with
            status := Status.finished
            currentPlayer := none
            currentPlayerId := none
            turnDeadline := none
            updatedAt := now }) ∧
    stateInfoStatus (getGameState now (some g)).1 = some Status.finished := by
  have hcond : g.mode = Mode.rapid ∧ g.status = Status.active ∧
      deadlinePassed now g.turnDeadline = true := by
    refine ⟨hmode, hstatus, ?_⟩
    simp [deadlinePassed, hdl]
    exact hnow
  constructor
  · simp [getGameState, hcond]
  · simp [getGameState, hcond, stateInfoStatus, mkStateInfo]

/-- Witness for `getGameState_rapid_expiry` at the concrete expired rapid
game `gRapid`. -/
theorem getGameState_rapid_expiry_witness :
    stateInfoStatus (getGameState 2000 (some gRapid)).1 = some Status.finished :=
  (getGameState_rapid_expiry 2000 gRapid 1000 (by decide) (by decide) (by decide)
    (by decide)).2

/-- **C10**: approving a pending join request while the game is already at
capacity (and the requester is not already a member) fails with the Full
error and performs no write at all — the stored document, including the
pending request, is unchanged — whereas a denial under the same conditions
does commit a write that removes the pending request. -/
theorem reviewJoinRequest_full_error_no_write (now : Nat) (g : Game)
    (hid pid : String) (req : PendingRequest)
    (hh : hid ≠ "") (hp : pid ≠ "")
    (hhost : g.hostId = hid) (hwait : g.status = Status.waiting)
    (hreq : g.pendingRequests.find? (fun r => r.playerId = pid) = some req)
    (hnm : g.players.any (fun p => p.id = req.playerId ∨ p.name = req.playerName) = false)
    (hfull : g.players.length ≥ g.maxPlayers) :
    reviewJoinRequest now (some g) (some hid) (some pid) true =
      (.err "Game is full" 400, some g) ∧
    reviewJoinRequest now (some g) (some hid) (some pid) false =
      (.ok
        { g with
          pendingRequests := g.pendingRequests.filter (fun r => r.playerId ≠ pid)
          updatedAt := now } false,
       some
        { g with
          pendingRequests := g.pendingRequests.filter (fun r => r.playerId ≠ pid)
          updatedAt := now }) := by
  have hh' : ¬ g.hostId = "" := by rw [hhost]; exact hh
  have hnm' : ¬ ∃ x ∈ g.players, x.id = req.playerId ∨ x.name = req.playerName := by
    simpa using hnm
  constructor <;>
    simp [reviewJoinRequest, reviewJoinRequestTx, strFalsy, hh', hp, hhost.symm, hwait,
      hreq, addPlayerToGame, hnm', hfull]

/-- Witness for `reviewJoinRequest_full_error_no_write` on the concrete
at-capacity lobby `gLobby` with pending requester Bob. -/
theorem reviewJoinRequest_full_error_no_write_witness :
    reviewJoinRequest 10 (some gLobby) (some "h1") (some "b1") true =
      (.err "Game is full" 400, some gLobby) :=
  (reviewJoinRequest_full_error_no_write 10 gLobby "h1" "b1"
    { playerId := "b1", playerName := "Bob", requestedAt := 5 }
    (by decide) (by decide) (by decide) (by decide) (by decide) (by decide)
    (by decide)).1

/-- **C6** (counterexample): `Alice` is already a member of `gLobby` (by id
and name), yet her direct join fails with the ApprovalRequired error instead
of idempotently returning the current state: in `joinGame` the
host-approval check precedes the already-member check, so the claimed
unconditional idempotency for members is false. -/
theorem joinGame_member_not_idempotent_counterexample :
    gLobby.players.any (fun p => p.id = "a1" ∨ p.name = "Alice") = true ∧
    joinGame 10 (some gLobby) (some "Alice") (some "a1") =
      (.err "Host approval required" 403, some gLobby) := by decide

/-- **C6** (amended): the direct join is idempotent for an already-member
caller once the checks that precede the membership test pass — the game is
waiting, multi-mode, and approval is either not required or the caller is
the host; then the current state is returned with no write. -/
theorem joinGame_member_idempotent (now : Nat) (g : Game)
    (playerName : Option String) (pid : String)
    (hname : trimName playerName "Anonymous" ≠ "")
    (hpid : pid ≠ "")
    (hwait : g.status = Status.waiting)
    (hmulti : g.mode = Mode.multi)
    (happ : effectiveRequiresApproval g = true → pid = g.hostId)
    (hmem : g.players.any
      (fun p => p.id = pid ∨ p.name = trimName playerName "Anonymous") = true) :
    joinGame now (some g) playerName (some pid) = (.game g, some g) := by
  have hnotapp : ¬ (effectiveRequiresApproval g = true ∧ ¬ pid = g.hostId) := by
    rintro ⟨h1, h2⟩
    exact h2 (happ h1)
  have hmem' : ∃ x ∈ g.players, x.id = pid ∨ x.name = trimName playerName "Anonymous" := by
    simpa using hmem
  simp [joinGame, joinGameTx, strFalsy, hname, hpid, hwait, hmulti, hnotapp, hmem']

/-- Witness for `joinGame_member_idempotent`: the host re-joining their own
approval-required lobby. -/
theorem joinGame_member_idempotent_witness :
    joinGame 10 (some gLobby) (some "Hope") (some "h1") = (.game gLobby, some gLobby) :=
  joinGame_member_idempotent 10 gLobby (some "Hope") "h1" (by decide) (by decide)
    (by decide) (by decide) (by decide) (by decide)

/-- **C1** (counterexample): in the non-rapid game `gActive` (deadline 1000)
a submission at time 2000 takes the timeout branch: the call rotates and
returns the Timeout error naming both players, BUT the state it stores has
`status = timeout` — and the next `getGameState` poll observes status
`timeout`, not `active`: the timeout status persists durably past the
transaction. -/
theorem submitTurn_timeout_persists_counterexample :
    gActive.mode ≠ Mode.rapid ∧
    (submitTurn genStub 2000 (some gActive) "t1" (some "Hope") (some "h1") (some "hi")).1 =
      .errTimeoutRotate "Turn timed out" 409 (some "Hope") (some "Alice") (some 62000) ∧
    ((submitTurn genStub 2000 (some gActive) "t1" (some "Hope") (some "h1") (some "hi")).2.1.map
      Game.status) = some Status.timeout ∧
    stateInfoStatus (getGameState 3000
      (submitTurn genStub 2000 (some gActive) "t1" (some "Hope") (some "h1") (some "hi")).2.1).1 =
      some Status.timeout ∧
    some Status.timeout ≠ some Status.active := by decide

/-- **C5**: (1) creation establishes the membership invariant (player list
within `maxPlayers`, ids and names unique); (2) the invariant is preserved
by every sequence of membership operations (direct join and join-request
review); (3) any attempt to add a player who is not already present (by id
or name) to a game at or above capacity fails with the Full error, status
400. -/
theorem membership_capacity_and_uniqueness :
    (∀ genI gid now hostName hostId prompt tds mt mp mode g,
        createGame genI gid now hostName hostId prompt tds mt mp mode = .ok g →
        MembershipInvariant g) ∧
    (∀ stored ops g',
        (∀ g, stored = some g → MembershipInvariant g) →
        runMembershipOps stored ops = some g' → MembershipInvariant g') ∧
    (∀ now g pid pname,
        g.players.any (fun p => p.id = pid ∨ p.name = pname) = false →
        g.players.length ≥ g.maxPlayers →
        addPlayerToGame now g pid pname = .err "Game is full" 400) := by
  refine ⟨?_, ?_, ?_⟩
  · intro genI gid now hostName hostId prompt tds mt mp mode g hok
    simp only [createGame] at hok
    by_cases hf : strFalsy hostId
    · rw [if_pos hf] at hok
      cases hok
    · rw [if_neg hf] at hok
      cases hok
      refine ⟨?_, by simp, by simp⟩
      have hcap : 1 ≤ (clamp mp (if mode = "single" ∨ mode = "rapid" then 1 else 2) 7
          (if mode = "rapid" then 2 else if mode = "single" then 1 else 3)).toNat := by
        refine clamp_toNat_pos mp _ 7 _ ?_ ?_ ?_
        · split <;> norm_num
        · split <;> norm_num
        · split
          · norm_num
          · split <;> norm_num
      simpa using hcap
  · intro stored ops g' hinv hrun
    exact runMembershipOps_inv ops stored g' hinv hrun
  · intro now g pid pname hmem hfull
    have hmem' : ¬ ∃ x ∈ g.players, x.id = pid ∨ x.name = pname := by simpa using hmem
    simp [addPlayerToGame, hmem', hfull]

/-- Witness for `membership_capacity_and_uniqueness`: the invariant after a
denial review on `gLobby`, and the Full error for a newcomer joining the
at-capacity `gLobby`. -/
theorem membership_capacity_and_uniqueness_witness :
    MembershipInvariant { gLobby with pendingRequests := [], updatedAt := 11 } ∧
    addPlayerToGame 10 gLobby "c1" "Cara" = .err "Game is full" 400 := by
  constructor
  · exact membership_capacity_and_uniqueness.2.1 (some gLobby)
      [MembershipOp.review 11 (some "h1") (some "b1") false] _
      (fun g h => by cases h; decide) (by decide)
  · exact membership_capacity_and_uniqueness.2.2 10 gLobby "c1" "Cara"
      (by decide) (by decide)

theorem submitTurn_timeout_eq (gen : GuideArgs → String) (now : Nat) (g : Game)
    (turnId : String) (playerName text : Option String) (pid : String) (d : Nat)
    (hname : trimName playerName "Anonymous" ≠ "")
    (hpid : pid ≠ "")
    (hfin : g.status ≠ Status.finished)
    (hmem : g.players.any (fun p => p.id = pid) = true)
    (hcur : g.currentPlayerId = some pid)
    (hdl : g.turnDeadline = some d)
    (hnow : now > d) :
    submitTurn gen now (some g) turnId playerName (some pid) text =
      if g.mode = Mode.rapid then
        (.errTimeoutFinished "Turn timed out" 409 true,
         some
          { g with
            status := Status.finished
            currentPlayer := none
            currentPlayerId := none
            turnDeadline := none
            updatedAt := now },
         none)
      else
        (.errTimeoutRotate "Turn timed out" 409 g.currentPlayer
           (advanceTurnState now { g with status := Status.timeout, updatedAt := now }).currentPlayer
           (advanceTurnState now { g with status := Status.timeout, updatedAt := now }).turnDeadline,
         some (advanceTurnState now { g with status := Status.timeout, updatedAt := now }),
         none) := by
  have hmem' : ∃ x ∈ g.players, x.id = pid := by simpa using hmem
  simp [submitTurn, strFalsy, hname, hpid, hfin, hmem', hcur, hdl, hnow]

/-- **C2**: a submission arriving after a set `turnDeadline` records no turn
child document and leaves `turnsCount` unchanged in whatever it stores; in
rapid mode it persists status finished (clearing the current-player fields
and the deadline) and returns the `Turn timed out` / 409 / `finished: true`
error, while in every other mode it rotates the turn order (storing the
advanced state) without recording a turn for the timed-out player. -/
theorem submitTurn_after_deadline_no_turn (gen : GuideArgs → String) (now : Nat)
    (g : Game) (turnId : String) (playerName text : Option String)
    (pid : String) (d : Nat)
    (hname : trimName playerName "Anonymous" ≠ "")
    (hpid : pid ≠ "")
    (hfin : g.status ≠ Status.finished)
    (hmem : g.players.any (fun p => p.id = pid) = true)
    (hcur : g.currentPlayerId = some pid)
    (hdl : g.turnDeadline = some d)
    (hnow : now > d) :
    (submitTurn gen now (some g) turnId playerName (some pid) text).2.2 = none ∧
    (∀ g', (submitTurn gen now (some g) turnId playerName (some pid) text).2.1 = some g' →
        g'.turnsCount = g.turnsCount) ∧
    (g.mode = Mode.rapid →
      submitTurn gen now (some g) turnId playerName (some pid) text =
        (.errTimeoutFinished "Turn timed out" 409 true,
         some
          { g with
            status := Status.finished
            currentPlayer := none
            currentPlayerId := none
            turnDeadline := none
            updatedAt := now },
         none)) ∧
    (g.mode ≠ Mode.rapid →
      submitTurn gen now (some g) turnId playerName (some pid) text =
        (.errTimeoutRotate "Turn timed out" 409 g.currentPlayer
           (advanceTurnState now { g with status := Status.timeout, updatedAt := now }).currentPlayer
           (advanceTurnState now { g with status := Status.timeout, updatedAt := now }).turnDeadline,
         some (advanceTurnState now { g with status := Status.timeout, updatedAt := now }),
         none)) := by
  have he := submitTurn_timeout_eq gen now g turnId playerName text pid d
    hname hpid hfin hmem hcur hdl hnow
  refine ⟨?_, ?_, ?_, ?_⟩
  · rw [he]
    split <;> rfl
  · intro g' hg'
    rw [he] at hg'
    by_cases hr : g.mode = Mode.rapid
    · rw [if_pos hr] at hg'
      simp only [Option.some.injEq] at hg'
      rw [← hg']
    · rw [if_neg hr] at hg'
      simp only [Option.some.injEq] at hg'
      rw [← hg', advanceTurnState_turnsCount]
  · intro hr
    rw [he, if_pos hr]
  · intro hr
    rw [he, if_neg hr]

/-- Witness for `submitTurn_after_deadline_no_turn` at the expired rapid
game `gRapid`. -/
theorem submitTurn_after_deadline_no_turn_witness :
    (submitTurn genStub 2000 (some gRapid) "t1" (some "Hope") (some "h1") (some "hi")).2.2 =
      none ∧
    (submitTurn genStub 2000 (some gRapid) "t1" (some "Hope") (some "h1") (some "hi")).1 =
      .errTimeoutFinished "Turn timed out" 409 true := by
  have h := submitTurn_after_deadline_no_turn genStub 2000 gRapid "t1" (some "Hope")
    (some "hi") "h1" 1000 (by decide) (by decide) (by decide) (by decide) (by decide)
    (by decide) (by decide)
  exact ⟨h.1, by rw [h.2.2.1 (by decide)]⟩

/-- **C1** (amended): for a non-rapid game, a late submission rotates to the
next player inside the transaction and immediately stores the rotated state
with a fresh deadline, returning a Timeout error naming the timed-out player
and the new current player — but the stored state keeps `status = timeout`
durably: every subsequent poll of that stored game reports status `timeout`
(not `active`) until some later operation overwrites it. -/
theorem submitTurn_timeout_rotation_durable (gen : GuideArgs → String) (now : Nat)
    (g : Game) (turnId : String) (playerName text : Option String)
    (pid : String) (d : Nat)
    (hname : trimName playerName "Anonymous" ≠ "")
    (hpid : pid ≠ "")
    (hfin : g.status ≠ Status.finished)
    (hmem : g.players.any (fun p => p.id = pid) = true)
    (hcur : g.currentPlayerId = some pid)
    (hdl : g.turnDeadline = some d)
    (hnow : now > d)
    (hmode : g.mode ≠ Mode.rapid) :
    submitTurn gen now (some g) turnId playerName (some pid) text =
      (.errTimeoutRotate "Turn timed out" 409 g.currentPlayer
         (advanceTurnState now { g with status := Status.timeout, updatedAt := now }).currentPlayer
         (advanceTurnState now { g with status := Status.timeout, updatedAt := now }).turnDeadline,
       some (advanceTurnState now { g with status := Status.timeout, updatedAt := now }),
       none) ∧
    (advanceTurnState now { g with status := Status.timeout, updatedAt := now }).status =
      Status.timeout ∧
    (g.players ≠ [] →
      (advanceTurnState now
          { g with status := Status.timeout, updatedAt := now }).currentPlayerIndex =
        (g.currentPlayerIndex + 1) % g.players.length ∧
      (advanceTurnState now { g with status := Status.timeout, updatedAt := now }).turnDeadline =
        some (now + g.turnDurationSeconds * 1000)) ∧
    (∀ now2, stateInfoStatus (getGameState now2
        (some (advanceTurnState now { g with status := Status.timeout, updatedAt := now }))).1 =
      some Status.timeout) := by
  have he := submitTurn_timeout_eq gen now g turnId playerName text pid d
    hname hpid hfin hmem hcur hdl hnow
  have hRs : (advanceTurnState now { g with status := Status.timeout, updatedAt := now }).status =
      Status.timeout := by
    rw [advanceTurnState_status]
  have hRm : (advanceTurnState now { g with status := Status.timeout, updatedAt := now }).mode =
      g.mode := by
    rw [advanceTurnState_mode]
  refine ⟨by rw [he, if_neg hmode], hRs, ?_, ?_⟩
  · intro hne
    have hne' : ({ g with status := Status.timeout, updatedAt := now } : Game).players ≠ [] := hne
    have := advanceTurnState_rotates now { g with status := Status.timeout, updatedAt := now } hne'
    simpa using this
  · intro now2
    have hnotexp : ¬ ((advanceTurnState now
        { g with status := Status.timeout, updatedAt := now }).mode = Mode.rapid ∧
        (advanceTurnState now { g with status := Status.timeout, updatedAt := now }).status =
          Status.active ∧
        deadlinePassed now2 (advanceTurnState now
          { g with status := Status.timeout, updatedAt := now }).turnDeadline = true) := by
      rintro ⟨h1, _, _⟩
      rw [hRm] at h1
      exact hmode h1
    simp [getGameState, hnotexp, stateInfoStatus, mkStateInfo, hRs]

/-- Witness for `submitTurn_timeout_rotation_durable` on the concrete
expired two-player game `gActive`. -/
theorem submitTurn_timeout_rotation_durable_witness :
    stateInfoStatus (getGameState 3000
      (some (advanceTurnState 2000 { gActive with status := Status.timeout, updatedAt := 2000 }))).1 =
      some Status.timeout :=
  (submitTurn_timeout_rotation_durable genStub 2000 gActive "t1" (some "Hope")
    (some "hi") "h1" 1000 (by decide) (by decide) (by decide) (by decide) (by decide)
    (by decide) (by decide) (by decide)).2.2.2 3000

/-- **C3**: on a successful submission, when the new count
`order = turnsCount + 1` reaches a non-falsy `maxTurns`, the committed game
is finished with `currentPlayerId`/`currentPlayer` cleared and `turnDeadline`
null, the result is flagged finished, and exactly one scoring call is
triggered after the commit; when `maxTurns` is falsy (0), `willFinish` is
false: the game stays active and no scoring call happens. -/
theorem submitTurn_maxTurns_finish (gen : GuideArgs → String) (now : Nat)
    (g : Game) (turnId : String) (playerName text : Option String)
    (pid : String) (d : Nat)
    (hname : trimName playerName "Anonymous" ≠ "")
    (hpid : pid ≠ "")
    (hfin : g.status ≠ Status.finished)
    (hmem : g.players.any (fun p => p.id = pid) = true)
    (hcur : g.currentPlayerId = some pid)
    (hdl : g.turnDeadline = some d)
    (hnd : ¬ now > d)
    (htext : jsTrim (text.getD "") ≠ "") :
    (g.maxTurns ≠ 0 → g.turnsCount + 1 ≥ g.maxTurns →
      (∃ g' t, submitTurn gen now (some g) turnId playerName (some pid) text =
          (.ok g' t true, some g', some t)) ∧
      (submitTurn gen now (some g) turnId playerName (some pid) text).2.1.map Game.status =
        some Status.finished ∧
      (submitTurn gen now (some g) turnId playerName (some pid) text).2.1.map
          Game.currentPlayerId = some none ∧
      (submitTurn gen now (some g) turnId playerName (some pid) text).2.1.map
          Game.currentPlayer = some none ∧
      (submitTurn gen now (some g) turnId playerName (some pid) text).2.1.map
          Game.turnDeadline = some none ∧
      (submitTurn gen now (some g) turnId playerName (some pid) text).2.1.map
          Game.turnsCount = some (g.turnsCount + 1) ∧
      (submitTurn gen now (some g) turnId playerName (some pid) text).2.2.map
          TurnRecord.order = some (g.turnsCount + 1) ∧
      submitTurnScoringCalls
        (submitTurn gen now (some g) turnId playerName (some pid) text).1 = 1) ∧
    (g.maxTurns = 0 →
      (∃ g' t, submitTurn gen now (some g) turnId playerName (some pid) text =
          (.ok g' t false, some g', some t)) ∧
      (submitTurn gen now (some g) turnId playerName (some pid) text).2.1.map Game.status =
        some Status.active ∧
      submitTurnScoringCalls
        (submitTurn gen now (some g) turnId playerName (some pid) text).1 = 0) := by
  have hmem' : ∃ x ∈ g.players, x.id = pid := by simpa using hmem
  constructor
  · intro hm0 hge
    refine ⟨?_, ?_, ?_, ?_, ?_, ?_, ?_, ?_⟩
    · exact ⟨_, _, by
        simp [submitTurn, strFalsy, hname, hpid, hfin, hmem', hcur, hdl, hnd, htext,
          hm0, hge, submitTurnScoringCalls]
        try exact ⟨rfl, rfl⟩⟩
    all_goals
      simp [submitTurn, strFalsy, hname, hpid, hfin, hmem', hcur, hdl, hnd, htext,
        hm0, hge, submitTurnScoringCalls]
  · intro hm0
    refine ⟨?_, ?_, ?_⟩
    · exact ⟨_, _, by
        simp [submitTurn, strFalsy, hname, hpid, hfin, hmem', hcur, hdl, hnd, htext,
          hm0, submitTurnScoringCalls, advanceTurnState_status]
        try exact ⟨rfl, rfl⟩⟩
    all_goals
      simp [submitTurn, strFalsy, hname, hpid, hfin, hmem', hcur, hdl, hnd, htext,
        hm0, submitTurnScoringCalls, advanceTurnState_status]

/-- Witness for `submitTurn_maxTurns_finish`: the cap-reaching solo game
`gFinishing` (one scoring call) and the uncapped `gUncapped` (none). -/
theorem submitTurn_maxTurns_finish_witness :
    submitTurnScoringCalls
      (submitTurn genStub 2000 (some gFinishing) "t1" (some "Hope") (some "h1") (some "hi")).1 = 1 ∧
    (submitTurn genStub 2000 (some gFinishing) "t1" (some "Hope") (some "h1") (some "hi")).2.1.map
      Game.status = some Status.finished ∧
    submitTurnScoringCalls
      (submitTurn genStub 2000 (some gUncapped) "t1" (some "Hope") (some "h1") (some "hi")).1 = 0 := by
  have hA := submitTurn_maxTurns_finish genStub 2000 gFinishing "t1" (some "Hope")
    (some "hi") "h1" 10000000 (by decide) (by decide) (by decide) (by decide)
    (by decide) (by decide) (by decide) (by decide)
  have hB := submitTurn_maxTurns_finish genStub 2000 gUncapped "t1" (some "Hope")
    (some "hi") "h1" 10000000 (by decide) (by decide) (by decide) (by decide)
    (by decide) (by decide) (by decide) (by decide)
  exact ⟨(hA.1 (by decide) (by decide)).2.2.2.2.2.2.2,
    (hA.1 (by decide) (by decide)).2.1,
    (hB.2 (by decide)).2.2⟩

/-- **C4** (counterexample): previewTurn does NOT validate like steps 1–6 of
submitTurn.  (1) The NotYourTurn check is missing: member `Alice` is not the
current player of `gActiveFuture`, yet her preview succeeds while her
submission fails NotYourTurn 403.  (2) The deadline-expiry check is missing:
current player `Hope` previews successfully on `gActive` although its
deadline has elapsed (time 2000 > 1000), while her submission takes the
timeout branch. -/
theorem previewTurn_skips_checks_counterexample :
    previewTurn genStub (some gActiveFuture) (some "Alice") (some "a1") (some "hi") =
      .preview "GUIDE-2" 1 ∧
    (submitTurn genStub 2000 (some gActiveFuture) "t1" (some "Alice") (some "a1") (some "hi")).1 =
      .errNotYourTurn "Alice" 403 (some "Hope") ∧
    previewTurn genStub (some gActive) (some "Hope") (some "h1") (some "hi") =
      .preview "GUIDE-2" 1 ∧
    (submitTurn genStub 2000 (some gActive) "t1" (some "Hope") (some "h1") (some "hi")).1 =
      .errTimeoutRotate "Turn timed out" 409 (some "Hope") (some "Alice") (some 62000) := by
  decide

/-- **C4** (amended): previewTurn applies the NotFound, Finished and
NotAMember validations the same way submitTurn does (the membership error
message says `previewing` instead of `submitting`), and rejects empty text;
but it performs neither the NotYourTurn check nor the deadline-expiry check:
whenever the game exists, is unfinished, the caller is a member and the text
is non-empty, it returns the computed next prompt and the would-be order
`turnsCount + 1` — regardless of whose turn it is or whether the deadline
has passed — and, being a plain read, writes no state. -/
theorem previewTurn_validations_amended :
    (∀ (gen : GuideArgs → String) (playerName playerId text : Option String),
        trimName playerName "Anonymous" ≠ "" → strFalsy playerId = false →
        previewTurn gen none playerName playerId text = .err "Game not found" 404 ∧
        (∀ now turnId, submitTurn gen now none turnId playerName playerId text =
          (.err "Game not found" 404, none, none))) ∧
    (∀ (gen : GuideArgs → String) (g : Game) (playerName playerId text : Option String),
        trimName playerName "Anonymous" ≠ "" → strFalsy playerId = false →
        g.status = Status.finished →
        previewTurn gen (some g) playerName playerId text = .err "Game has finished" 400 ∧
        (∀ now turnId, submitTurn gen now (some g) turnId playerName playerId text =
          (.err "Game has finished" 400, none, none))) ∧
    (∀ (gen : GuideArgs → String) (g : Game) (playerName text : Option String) (pid : String),
        trimName playerName "Anonymous" ≠ "" → pid ≠ "" →
        g.status ≠ Status.finished →
        g.players.any (fun p => p.id = pid) = false →
        previewTurn gen (some g) playerName (some pid) text =
          .err "Player must join the game before previewing a turn" 403 ∧
        (∀ now turnId, submitTurn gen now (some g) turnId playerName (some pid) text =
          (.err "Player must join the game before submitting a turn" 403, none, none))) ∧
    (∀ (gen : GuideArgs → String) (g : Game) (playerName text : Option String) (pid : String),
        trimName playerName "Anonymous" ≠ "" → pid ≠ "" →
        g.status ≠ Status.finished →
        g.players.any (fun p => p.id = pid) = true →
        jsTrim (text.getD "") = "" →
        previewTurn gen (some g) playerName (some pid) text =
          .err "Turn text is required" 400) ∧
    (∀ (gen : GuideArgs → String) (g : Game) (playerName text : Option String) (pid : String),
        trimName playerName "Anonymous" ≠ "" → pid ≠ "" →
        g.status ≠ Status.finished →
        g.players.any (fun p => p.id = pid) = true →
        jsTrim (text.getD "") ≠ "" →
        previewTurn gen (some g) playerName (some pid) text =
          .preview
            (gen { storySoFar :=
                     joinNonEmpty (jsOrS g.storySoFar g.initialPrompt) (jsTrim (text.getD ""))
                   lastTurnText := jsTrim (text.getD "")
                   previousPrompt := g.guidePrompt
                   turnNumber := g.turnsCount + 2
                   initialPrompt := g.initialPrompt })
            (g.turnsCount + 1)) := by
  refine ⟨?_, ?_, ?_, ?_, ?_⟩
  · intro gen playerName playerId text hname hpid
    exact ⟨by simp [previewTurn, hname, hpid],
      fun now turnId => by simp [submitTurn, hname, hpid]⟩
  · intro gen g playerName playerId text hname hpid hfin
    exact ⟨by simp [previewTurn, hname, hpid, hfin],
      fun now turnId => by simp [submitTurn, hname, hpid, hfin]⟩
  · intro gen g playerName text pid hname hpid hfin hmem
    have hmem' : ¬ ∃ x ∈ g.players, x.id = pid := by simpa using hmem
    exact ⟨by simp [previewTurn, strFalsy, hname, hpid, hfin, hmem'],
      fun now turnId => by simp [submitTurn, strFalsy, hname, hpid, hfin, hmem']⟩
  · intro gen g playerName text pid hname hpid hfin hmem htext
    have hmem' : ∃ x ∈ g.players, x.id = pid := by simpa using hmem
    simp [previewTurn, strFalsy, hname, hpid, hfin, hmem', htext]
  · intro gen g playerName text pid hname hpid hfin hmem htext
    have hmem' : ∃ x ∈ g.players, x.id = pid := by simpa using hmem
    simp [previewTurn, strFalsy, hname, hpid, hfin, hmem', htext]

/-- Witness for `previewTurn_validations_amended`: Alice (a member, but not
the current player) successfully previews on `gActiveFuture`. -/
theorem previewTurn_validations_amended_witness :
    previewTurn genStub (some gActiveFuture) (some "Alice") (some "a1") (some "hi") =
      .preview "GUIDE-2" 1 := by
  have h := previewTurn_validations_amended.2.2.2.2 genStub gActiveFuture
    (some "Alice") (some "hi") "a1" (by decide) (by decide) (by decide) (by decide)
    (by decide)
  rw [h]
  decide

theorem findLBEntry_setLBEntry (lb : List LBEntry) (e : LBEntry) :
    findLBEntry (setLBEntry lb e) e.userId = some e := by
  induction lb with
  | nil => simp [setLBEntry, findLBEntry]
  | cons x xs ih =>
    unfold setLBEntry
    by_cases h : x.userId = e.userId
    · rw [if_pos h]
      simp [findLBEntry]
    · rw [if_neg h]
      unfold findLBEntry at ih ⊢
      rw [List.find?_cons_of_neg _ (by simpa using h)]
      exact ih

theorem length_insertByTopScore (e : LBEntry) (l : List LBEntry) :
    (insertByTopScore e l).length = l.length + 1 := by
  induction l with
  | nil => rfl
  | cons x xs ih =>
    unfold insertByTopScore
    split
    · simp
    · simp [ih]

theorem length_sortByTopScoreDesc (l : List LBEntry) :
    (sortByTopScoreDesc l).length = l.length := by
  induction l with
  | nil => rfl
  | cons x xs ih =>
    unfold sortByTopScoreDesc at ih ⊢
    simp [List.foldr, length_insertByTopScore, ih]

theorem trimLeaderboard_length_le (lb : List LBEntry) :
    (trimLeaderboard lb).length ≤ 10 := by
  unfold trimLeaderboard
  split
  · simp [List.length_take, length_sortByTopScoreDesc]
  · omega

/-- **C8**: (1) the per-user leaderboard upsert writes exactly the documented
record: `lastScore` is the aggregate (the mean of the three judged metrics,
`aggregateScore`), `topScore` is the max of the previous top score and the
aggregate, `gamesPlayed` is incremented by one, and `topGameSummary` is
(re)attached exactly when the aggregate strictly exceeds the previous top
score and a summary exists — otherwise the previous value persists under the
merge write; (2) after any `updateLeaderboard` run with scores present, the
collection holds at most 10 entries. -/
theorem updateLeaderboard_spec :
    (∀ (now : Nat) (userId name : String) (s : ScoreObj)
        (summary : Option GameSummaryDoc) (lb : List LBEntry),
        findLBEntry (upsertLBEntry now userId name s summary lb) userId =
          some
            { userId := userId
              username := name
              lastScore := aggregateScore s
              topScore :=
                max (match findLBEntry lb userId with
                     | some e => e.topScore
                     | none => 0) (aggregateScore s)
              gamesPlayed :=
                (match findLBEntry lb userId with
                 | some e => e.gamesPlayed
                 | none => 0) + 1
              lastUpdated := now
              topGameSummary :=
                if aggregateScore s >
                    (match findLBEntry lb userId with
                     | some e => e.topScore
                     | none => 0) ∧ summary.isSome
                then summary
                else
                  match findLBEntry lb userId with
                  | some e => e.topGameSummary
                  | none => none }) ∧
    (∀ (now : Nat) (entries : List (String × ScoreObj)) (players : List Player)
        (summary : Option GameSummaryDoc) (lb : List LBEntry),
        (updateLeaderboard now (some entries) players summary lb).length ≤ 10) := by
  constructor
  · intro now userId name s summary lb
    unfold upsertLBEntry
    exact findLBEntry_setLBEntry lb _
  · intro now entries players summary lb
    unfold updateLeaderboard
    exact trimLeaderboard_length_le _

end StoryGame
